import Mathlib

/-!
Shallow embedding of the Token-Gated Messaging Gateway implemented in
`src/tokenAccessManager.js` (class `TokenAccessManager`), covering the
WebSocket chat-server core: session/room bookkeeping (`userSessions`,
`chatRooms`), the ledger access check (`checkAccess`), room membership
lifecycle (`addUserToRoom`, `removeUserFromRooms`), message fan-out
(`broadcastToRoom`), and the per-connection frame dispatch installed by
`initChatServer` (the `ws.on('message')` handler and the `ws.on('close')`
handler).

Modelling conventions:
- connection handles (`ws` objects) are natural numbers (`Conn`);
- addresses (user identities and room ids, i.e. creator addresses) are
  strings (`Addr`);
- a JavaScript `Set` is an insertion-ordered duplicate-free list
  (`setAdd` mirrors `Set.add`, `List.filter` mirrors `Set.delete`);
- the JavaScript `Map`s `this.userSessions` and `this.chatRooms` are
  functions into `Option`;
- the external boundary (ethers signature recovery, the contract calls
  `keysBalance` / `queryFilter`, and each socket's `readyState`) is an
  abstract environment `Env`; a thrown exception on a contract call is
  `Except.error`, a `verifyMessage` throw is `none`;
- an outbound `ws.send(JSON.stringify f)` is recorded as a pair
  `(recipient, f)` in an output list.
-/

namespace TokenGate

/-- Connection handle: stands for one `ws` object of the WebSocket server. -/
abbrev Conn := Nat

/-- Address-like identifier (user identity or creator address / room id). -/
abbrev Addr := String

/-- JavaScript `Set.add`: append the element unless it is already present. -/
def setAdd {α : Type} [DecidableEq α] (s : List α) (x : α) : List α :=
  if x ∈ s then s else s ++ [x]

/-- Value stored in `this.userSessions` by `addUserToRoom`:
`{ userId, rooms: new Set([roomId]) }`. -/
structure Session where
  userId : Addr
  rooms : List Addr
deriving DecidableEq

/-- The chat server's shared mutable state: the maps `this.userSessions`
(keyed by `ws`) and `this.chatRooms` (keyed by room id, holding the member
set of connection handles). -/
structure ServerState where
  userSessions : Conn → Option Session
  chatRooms : Addr → Option (List Conn)

/-- Outbound frames produced with `ws.send(JSON.stringify(...))`. -/
inductive Frame where
  | error (message : String)
  | authResult (success : Bool) (accessibleRooms : List Addr)
  | roomJoined (roomId : Addr)
  | newMessage (sender : Addr) (content : String) (timestamp : Nat)
deriving DecidableEq

/-- Inbound frames after `JSON.parse`, discriminated on `data.type`.
`unknownType` is a frame that parsed as JSON but whose `type` is missing or
matches no `case` of the dispatch `switch`; `malformed` is a frame on which
`JSON.parse` (or a handler) throws, reaching the `catch` block. -/
inductive InFrame where
  | auth (signature message : String)
  | joinRoom (creatorAddress : Addr)
  | sendMessage (roomId : Addr) (content : String)
  | unknownType
  | malformed
deriving DecidableEq

/-- The external boundary of the gateway: ethers signature recovery
(`verifyMessage message signature`, `none` when ethers throws), the
contract event query behind `getUserAccessibleRooms` (list of
`event.args.subject` values, `Except.error` when the RPC call throws), the
contract call `keysBalance(user, creator)` (`Except.error` when it throws),
each socket's `readyState`, and `Date.now()`. -/
structure Env where
  verifyMessage : String → String → Option Addr
  keyPurchaseSubjects : Option Addr → Except String (List Addr)
  keysBalance : Addr → Addr → Except String Nat
  readyState : Conn → Nat
  now : Nat

/-- Result of `checkAccess`: `{hasAccess, keyCount}` on success,
`{hasAccess: false, error}` when the contract call throws. -/
structure AccessResult where
  hasAccess : Bool
  keyCount : Option Nat
  errorMsg : Option String
deriving DecidableEq

/-- `checkAccess(userAddress, creatorAddress)`: queries
`this.contract.keysBalance` and returns `hasAccess = balance > 0`; the
`catch` branch returns `hasAccess: false` with the error message. -/
def checkAccess (env : Env) (userAddress creatorAddress : Addr) : AccessResult :=
  match env.keysBalance userAddress creatorAddress with
  | Except.ok balance => ⟨decide (0 < balance), some balance, none⟩
  | Except.error e => ⟨false, none, some e⟩

/-- `authenticateUser(signature, message)`: recovers an address with
`ethers.utils.verifyMessage(message, signature)`; the `catch` branch
returns `null`. -/
def authenticateUser (env : Env) (signature message : String) : Option Addr :=
  env.verifyMessage message signature

/-- `getUserAccessibleRooms(userAddress)`: queries `KeyPurchase` events and
deduplicates the creator addresses through a `Set`; the `catch` branch
returns `[]`. -/
def getUserAccessibleRooms (env : Env) (userAddress : Option Addr) : List Addr :=
  match env.keyPurchaseSubjects userAddress with
  | Except.ok events => events.foldl setAdd []
  | Except.error _ => []

/-- `addUserToRoom(ws, userId, roomId)`: creates the room's member set if
absent, adds `ws` to it, stores `{userId, rooms: new Set([roomId])}` as the
session for `ws` (overwriting any previous session value), and sends
`room_joined` to `ws`. Returns the new state and the sent frames. -/
def addUserToRoom (st : ServerState) (ws : Conn) (userId : Addr) (roomId : Addr) :
    ServerState × List (Conn × Frame) :=
  let room := setAdd ((st.chatRooms roomId).getD []) ws
  (⟨fun c => if c = ws then some ⟨userId, [roomId]⟩ else st.userSessions c,
    fun r => if r = roomId then some room else st.chatRooms r⟩,
   [(ws, Frame.roomJoined roomId)])

/-- One iteration of the cleanup loop of `removeUserFromRooms`: delete `ws`
from the room's member set and delete the room from `chatRooms` when the
member set became empty. -/
def leaveRoom (ws : Conn) (cr : Addr → Option (List Conn)) (roomId : Addr) :
    Addr → Option (List Conn) :=
  match cr roomId with
  | none => cr
  | some room =>
    let rest := room.filter (fun c => c != ws)
    if rest.isEmpty then fun r => if r = roomId then none else cr r
    else fun r => if r = roomId then some rest else cr r

/-- `removeUserFromRooms(ws, userId)`: looks up the session of `ws`
(returning unchanged when absent), removes `ws` from every room listed in
`session.rooms` (deleting rooms whose member set becomes empty), and
deletes the session. -/
def removeUserFromRooms (st : ServerState) (ws : Conn) (_userId : Addr) : ServerState :=
  match st.userSessions ws with
  | none => st
  | some session =>
      ⟨fun c => if c = ws then none else st.userSessions c,
       session.rooms.foldl (leaveRoom ws) st.chatRooms⟩

/-- `broadcastToRoom(roomId, message, excludeWs)`: returns silently when the
room is absent from `chatRooms`; otherwise sends the message to every
member `client` of the room with `client !== excludeWs` and
`client.readyState === 1`. Returns the list of performed sends. -/
def broadcastToRoom (st : ServerState) (ready : Conn → Nat) (roomId : Addr)
    (msg : Frame) (excludeWs : Option Conn) : List (Conn × Frame) :=
  match st.chatRooms roomId with
  | none => []
  | some room =>
      (room.filter (fun client => some client != excludeWs && ready client == 1)).map
        (fun client => (client, msg))

/-- Per-connection local state of the `connection` handler closure: the
`userId` and `accessibleRooms` variables. -/
structure ConnState where
  userId : Option Addr
  accessibleRooms : List Addr
deriving DecidableEq

/-- Result of dispatching one inbound frame: the updated closure variables,
the updated shared server state, and the frames sent (in order). -/
structure StepResult where
  conn : ConnState
  server : ServerState
  out : List (Conn × Frame)

/-- The `ws.on('message')` handler installed by `initChatServer`: parse and
switch on `data.type`; `auth` reassigns `userId` and `accessibleRooms` and
replies `auth_result`; `join_room` requires `userId`, runs `checkAccess`
and on success `addUserToRoom`; `send_message` requires `userId` and runs
`broadcastToRoom` excluding the sender; an unrecognized `type` falls
through the `switch` silently; a parse failure reaches the `catch` block,
which replies an `Invalid message format` error frame. -/
def handleMessage (env : Env) (ws : Conn) (cs : ConnState) (st : ServerState)
    (data : InFrame) : StepResult :=
  match data with
  | InFrame.auth signature message =>
      let userId := authenticateUser env signature message
      let accessibleRooms := getUserAccessibleRooms env userId
      ⟨⟨userId, accessibleRooms⟩, st,
       [(ws, Frame.authResult userId.isSome accessibleRooms)]⟩
  | InFrame.joinRoom creatorAddress =>
      match cs.userId with
      | none => ⟨cs, st, [(ws, Frame.error "Not authenticated")]⟩
      | some uid =>
          if (checkAccess env uid creatorAddress).hasAccess then
            let res := addUserToRoom st ws uid creatorAddress
            ⟨cs, res.1, res.2⟩
          else
            ⟨cs, st,
             [(ws, Frame.error "You do not have access to this room. Purchase keys first.")]⟩
  | InFrame.sendMessage roomId content =>
      match cs.userId with
      | none => ⟨cs, st, [(ws, Frame.error "Not authenticated")]⟩
      | some uid =>
          ⟨cs, st,
           broadcastToRoom st env.readyState roomId
             (Frame.newMessage uid content env.now) (some ws)⟩
  | InFrame.unknownType => ⟨cs, st, []⟩
  | InFrame.malformed => ⟨cs, st, [(ws, Frame.error "Invalid message format")]⟩

/-- The `ws.on('close')` handler: runs `removeUserFromRooms` only when the
connection had authenticated (`if (userId)`). -/
def handleClose (cs : ConnState) (st : ServerState) (ws : Conn) : ServerState :=
  match cs.userId with
  | none => st
  | some uid => removeUserFromRooms st ws uid

/-- Gateway-level events: a client connects, sends one frame, or closes. -/
inductive Event where
  | connect (ws : Conn)
  | msg (ws : Conn) (data : InFrame)
  | close (ws : Conn)

/-- Whole-gateway state: the open connections with their closure variables,
plus the shared server state. -/
structure GState where
  conns : Conn → Option ConnState
  server : ServerState

/-- One gateway step: `connect` installs a fresh handler closure
(`userId = null`, `accessibleRooms = []`); a frame from an open connection
runs `handleMessage`; `close` runs the close handler and discards the
closure. Events on unknown connections do nothing. -/
def step (env : Env) (g : GState) (e : Event) : GState × List (Conn × Frame) :=
  match e with
  | Event.connect ws =>
      (⟨fun c => if c = ws then some ⟨none, []⟩ else g.conns c, g.server⟩, [])
  | Event.msg ws data =>
      match g.conns ws with
      | none => (g, [])
      | some cs =>
          let r := handleMessage env ws cs g.server data
          (⟨fun c => if c = ws then some r.conn else g.conns c, r.server⟩, r.out)
  | Event.close ws =>
      match g.conns ws with
      | none => (g, [])
      | some cs =>
          (⟨fun c => if c = ws then none else g.conns c, handleClose cs g.server ws⟩, [])

/-- Run a sequence of gateway events, discarding outputs. -/
def run (env : Env) (g : GState) (es : List Event) : GState :=
  es.foldl (fun g e => (step env g e).1) g

/-- Member set of a room as the spec reads it: `membersOf(roomId)`. -/
def membersOf (st : ServerState) (roomId : Addr) : List Conn :=
  (st.chatRooms roomId).getD []

/-- Joined-room set of a connection's session record: `joinedRooms(C)`. -/
def joinedRoomsOf (st : ServerState) (ws : Conn) : List Addr :=
  match st.userSessions ws with
  | some session => session.rooms
  | none => []

/-- The empty server state (fresh `Map()`s). -/
def initialServer : ServerState := ⟨fun _ => none, fun _ => none⟩

/-- The initial gateway state: no connections, fresh maps. -/
def initialG : GState := ⟨fun _ => none, initialServer⟩

/-- Concrete environment: every signature recovers `alice`, no purchase
events, every balance query answers 1, every socket is writable (open). -/
def envAlice : Env :=
  ⟨fun _ _ => some "alice", fun _ => Except.ok [], fun _ _ => Except.ok 1,
   fun _ => 1, 0⟩

/-- Concrete environment whose ledger query always throws. -/
def envLedgerDown : Env :=
  ⟨fun _ _ => some "alice", fun _ => Except.ok [], fun _ _ => Except.error "LedgerUnavailable",
   fun _ => 1, 0⟩

/-- Concrete environment: every signature recovers `bob`. -/
def envBob : Env :=
  ⟨fun _ _ => some "bob", fun _ => Except.ok [], fun _ _ => Except.ok 1,
   fun _ => 1, 0⟩

/-- Concrete server state with one room `r` whose sole member is
connection 2, which holds a matching session. -/
def stRoomR : ServerState :=
  ⟨fun c => if c = 2 then some ⟨"bob", ["r"]⟩ else none,
   fun r => if r = "r" then some [2] else none⟩

/-- Event trace: connection 1 opens, authenticates, joins room `A`, then
joins room `B`. -/
def traceJoinAB : List Event :=
  [Event.connect 1, Event.msg 1 (InFrame.auth "sig" "challenge"),
   Event.msg 1 (InFrame.joinRoom "A"), Event.msg 1 (InFrame.joinRoom "B")]

/-- Event trace: `traceJoinAB` followed by connection 1 closing. -/
def traceJoinABClose : List Event := traceJoinAB ++ [Event.close 1]

/-- Concrete environment: every signature recovers `alice`, every balance
query answers 0 (the user holds no keys). -/
def envZeroBalance : Env :=
  ⟨fun _ _ => some "alice", fun _ => Except.ok [], fun _ _ => Except.ok 0,
   fun _ => 1, 0⟩

/-- Concrete server state with one room `t` whose member set is
connections 1, 2, 3 (no sessions needed for fan-out). -/
def stABC : ServerState :=
  ⟨fun _ => none, fun r => if r = "t" then some [1, 2, 3] else none⟩

/-- Concrete gateway state: connection 1 is open and authenticated as
`alice`, shared server state `stRoomR`. -/
def gOpen : GState :=
  ⟨fun c => if c = 1 then some ⟨some "alice", []⟩ else none, stRoomR⟩

/-- An element is always a member of the set obtained by adding it. -/
theorem mem_setAdd_self {α : Type} [DecidableEq α] (s : List α) (x : α) :
    x ∈ setAdd s x := by
  unfold setAdd
  split
  · assumption
  · simp

/-- C1: the spec's invariant "C ∈ membersOf(R) ⇔ R ∈ joinedRooms(C)" fails
on the code. After connect, auth, join_room A, join_room B (all balances
positive), connection 1 is a member of room A, yet A is not in its
session's joined-room set: `addUserToRoom` overwrites `session.rooms` with
the singleton of the just-joined room. -/
theorem c1_membership_session_invariant_fails :
    (1 : Conn) ∈ membersOf (run envAlice initialG traceJoinAB).server "A" ∧
    "A" ∉ joinedRoomsOf (run envAlice initialG traceJoinAB).server 1 := by
  decide

/-- C6: after the same trace followed by connection 1 closing, room A is
still present in the registry (holding the dead handle) even though
connection 1 was its sole member and has disconnected; only room B, the
one recorded in the overwritten session, was cleaned up. -/
theorem c6_sole_member_disconnect_room_persists :
    (run envAlice initialG traceJoinABClose).server.chatRooms "A" = some [1] ∧
    (run envAlice initialG traceJoinABClose).server.chatRooms "B" = none ∧
    (run envAlice initialG traceJoinABClose).conns 1 = none := by
  decide

/-- C3: `checkAccess` grants access exactly when the ledger balance query
succeeds with a balance greater than 0; whenever the query throws, the
result is `hasAccess = false` (fail-closed), never `true`. -/
theorem c3_checkAccess_iff_positive_balance :
    ∀ (env : Env) (user creator : Addr),
      ((checkAccess env user creator).hasAccess = true ↔
        ∃ b, env.keysBalance user creator = Except.ok b ∧ 0 < b) ∧
      (∀ e, env.keysBalance user creator = Except.error e →
        (checkAccess env user creator).hasAccess = false) := by
  intro env user creator
  constructor
  · unfold checkAccess
    cases h : env.keysBalance user creator with
    | ok b => simp [h]
    | error e => simp [h]
  · intro e he
    unfold checkAccess
    rw [he]

/-- Witness for C3 at concrete environments: positive balance grants
access; a throwing ledger denies it. -/
theorem c3_checkAccess_iff_positive_balance_witness :
    (checkAccess envAlice "u" "c").hasAccess = true ∧
    (checkAccess envLedgerDown "u" "c").hasAccess = false :=
  ⟨(c3_checkAccess_iff_positive_balance envAlice "u" "c").1.mpr ⟨1, rfl, by decide⟩,
   (c3_checkAccess_iff_positive_balance envLedgerDown "u" "c").2 "LedgerUnavailable" rfl⟩

/-- C8 counterexample: an `auth` frame on a connection already
authenticated as `alice` does not fail with AlreadyAuthenticated; it
replaces the identity with the newly recovered `bob` and replies a
successful `auth_result`. -/
theorem c8_counterexample_reauth_replaces_identity :
    (handleMessage envBob 1 ⟨some "alice", []⟩ initialServer
        (InFrame.auth "s" "m")).conn.userId = some "bob" ∧
    (handleMessage envBob 1 ⟨some "alice", []⟩ initialServer
        (InFrame.auth "s" "m")).out = [(1, Frame.authResult true [])] := by
  decide

/-- C8 amended: every `auth` frame unconditionally reassigns the
connection's identity to the recovery result of `authenticateUser` (so a
failed re-auth even clears it), leaves the server state untouched, and
replies `auth_result` — there is no AlreadyAuthenticated failure and no
one-shot guard. -/
theorem c8_auth_always_replaces_identity :
    ∀ (env : Env) (ws : Conn) (cs : ConnState) (st : ServerState) (sig msg : String),
      (handleMessage env ws cs st (InFrame.auth sig msg)).conn.userId =
        authenticateUser env sig msg ∧
      (handleMessage env ws cs st (InFrame.auth sig msg)).server = st ∧
      (handleMessage env ws cs st (InFrame.auth sig msg)).out =
        [(ws, Frame.authResult (authenticateUser env sig msg).isSome
              (getUserAccessibleRooms env (authenticateUser env sig msg)))] :=
  fun _ _ _ _ _ _ => ⟨rfl, rfl, rfl⟩

/-- C10: a `send_message` from an authenticated connection naming a room
that is absent from the registry is a silent no-op: no frame is sent to
anyone (the sender included) and both the closure variables and the server
state are returned unchanged. -/
theorem c10_send_to_absent_room_silent_noop :
    ∀ (env : Env) (ws : Conn) (cs : ConnState) (st : ServerState) (roomId : Addr)
      (content : String) (uid : Addr),
      cs.userId = some uid → st.chatRooms roomId = none →
      handleMessage env ws cs st (InFrame.sendMessage roomId content) = ⟨cs, st, []⟩ := by
  intro env ws cs st roomId content uid hu hr
  simp [handleMessage, hu, broadcastToRoom, hr]

/-- Witness for C10: an authenticated sender naming room `nowhere` on the
empty server state produces no output and no state change. -/
theorem c10_send_to_absent_room_silent_noop_witness :
    handleMessage envAlice 1 ⟨some "alice", []⟩ initialServer
        (InFrame.sendMessage "nowhere" "hi") =
      ⟨⟨some "alice", []⟩, initialServer, []⟩ :=
  c10_send_to_absent_room_silent_noop envAlice 1 ⟨some "alice", []⟩ initialServer
    "nowhere" "hi" "alice" rfl rfl

/-- C5: the access decision is recomputed from the current ledger balance
on every `join_room`: when the sender's balance for the room's creator is
now 0, the join is denied with the purchase-keys error and the server
state is unchanged, even though the sender is currently a member of that
room from an earlier join. -/
theorem c5_rejoin_with_zero_balance_denied :
    ∀ (env : Env) (ws : Conn) (cs : ConnState) (st : ServerState)
      (creator : Addr) (uid : Addr),
      cs.userId = some uid →
      ws ∈ membersOf st creator →
      env.keysBalance uid creator = Except.ok 0 →
      handleMessage env ws cs st (InFrame.joinRoom creator) =
        ⟨cs, st,
         [(ws, Frame.error "You do not have access to this room. Purchase keys first.")]⟩ := by
  intro env ws cs st creator uid hu _hm hb
  simp [handleMessage, hu, checkAccess, hb]

/-- Witness for C5: connection 2 is a member of room `r` (session held),
but with its balance now 0 a repeated `join_room r` is denied. -/
theorem c5_rejoin_with_zero_balance_denied_witness :
    handleMessage envZeroBalance 2 ⟨some "bob", []⟩ stRoomR (InFrame.joinRoom "r") =
      ⟨⟨some "bob", []⟩, stRoomR,
       [(2, Frame.error "You do not have access to this room. Purchase keys first.")]⟩ :=
  c5_rejoin_with_zero_balance_denied envZeroBalance 2 ⟨some "bob", []⟩ stRoomR "r" "bob"
    rfl (by decide) rfl

/-- C7 counterexample: a frame that parses as JSON but carries a missing or
unrecognized `type` falls through the dispatch `switch` silently — no
`Invalid message format` error frame (no frame at all) is produced,
contrary to the claim that every unrecognized frame yields that error. -/
theorem c7_counterexample_unknown_type_silently_ignored :
    (handleMessage envAlice 1 ⟨some "alice", []⟩ initialServer
        InFrame.unknownType).out = [] := rfl

/-- C7 amended: a frame on which `JSON.parse` throws reaches the catch
block, which replies exactly `error "Invalid message format"` and leaves
closure variables and server state unchanged; at the gateway level the
connection stays open with its state intact; a frame with an unrecognized
`type`, by contrast, is silently ignored (no frame, no state change). -/
theorem c7_malformed_frame_error_and_state_preserved :
    ∀ (env : Env) (ws : Conn) (cs : ConnState) (st : ServerState) (g : GState),
      (handleMessage env ws cs st InFrame.malformed =
        ⟨cs, st, [(ws, Frame.error "Invalid message format")]⟩) ∧
      (handleMessage env ws cs st InFrame.unknownType = ⟨cs, st, []⟩) ∧
      (g.conns ws = some cs →
        (step env g (Event.msg ws InFrame.malformed)).1.conns ws = some cs ∧
        (step env g (Event.msg ws InFrame.malformed)).1.server = g.server ∧
        (step env g (Event.msg ws InFrame.malformed)).2 =
          [(ws, Frame.error "Invalid message format")]) := by
  intro env ws cs st g
  refine ⟨rfl, rfl, fun h => ?_⟩
  simp [step, h, handleMessage]

/-- Witness for C7 at a concrete open gateway: the malformed frame yields
the error frame, keeps the connection open with its closure state, and
leaves the server state unchanged. -/
theorem c7_malformed_frame_error_and_state_preserved_witness :
    (step envAlice gOpen (Event.msg 1 InFrame.malformed)).1.conns 1 =
      some ⟨some "alice", []⟩ ∧
    (step envAlice gOpen (Event.msg 1 InFrame.malformed)).1.server = gOpen.server ∧
    (step envAlice gOpen (Event.msg 1 InFrame.malformed)).2 =
      [(1, Frame.error "Invalid message format")] :=
  (c7_malformed_frame_error_and_state_preserved envAlice 1 ⟨some "alice", []⟩
    gOpen.server gOpen).2.2 rfl

/-- C9: after `addUserToRoom`, the session stored for the connection has a
joined-room set equal to exactly the singleton of the just-joined room
(earlier joins are dropped from the session record), while the connection
is not removed from any room member set it already occupied. -/
theorem c9_addUserToRoom_session_rooms_singleton :
    ∀ (st : ServerState) (ws : Conn) (uid : Addr) (roomId : Addr),
      joinedRoomsOf (addUserToRoom st ws uid roomId).1 ws = [roomId] ∧
      (∀ r, ws ∈ membersOf st r → ws ∈ membersOf (addUserToRoom st ws uid roomId).1 r) := by
  intro st ws uid roomId
  constructor
  · simp [joinedRoomsOf, addUserToRoom]
  · intro r hr
    by_cases h : r = roomId
    · subst h
      simpa [membersOf, addUserToRoom] using mem_setAdd_self _ ws
    · simpa [membersOf, addUserToRoom, h] using hr

/-- Witness for C9: connection 2, already a member of room `r` with a
session recording `r`, joins room `s`: its session now records exactly
`[s]`, yet it is still in the member set of `r`. -/
theorem c9_addUserToRoom_session_rooms_singleton_witness :
    joinedRoomsOf (addUserToRoom stRoomR 2 "bob" "s").1 2 = ["s"] ∧
    2 ∈ membersOf (addUserToRoom stRoomR 2 "bob" "s").1 "r" :=
  ⟨(c9_addUserToRoom_session_rooms_singleton stRoomR 2 "bob" "s").1,
   (c9_addUserToRoom_session_rooms_singleton stRoomR 2 "bob" "s").2 "r" (by decide)⟩

/-- C2 counterexample: connection 1 is authenticated but is not a member
of room `r`; its `send_message` to `r` is not rejected with NotAMember —
the message is delivered to member 2. -/
theorem c2_counterexample_nonmember_send_delivered :
    (1 : Conn) ∉ membersOf stRoomR "r" ∧
    (handleMessage envAlice 1 ⟨some "alice", []⟩ stRoomR
        (InFrame.sendMessage "r" "hi")).out = [(2, Frame.newMessage "alice" "hi" 0)] := by
  decide

/-- C2 amended: `send_message` checks only authentication. An
unauthenticated sender fails with the `Not authenticated` error and
nothing is delivered; once authenticated, the message is broadcast to
every writable member of the room other than the sender, with no
membership check on the sender at all. -/
theorem c2_send_checks_only_authentication :
    ∀ (env : Env) (ws : Conn) (cs : ConnState) (st : ServerState)
      (roomId : Addr) (content : String),
      (cs.userId = none →
        handleMessage env ws cs st (InFrame.sendMessage roomId content) =
          ⟨cs, st, [(ws, Frame.error "Not authenticated")]⟩) ∧
      (∀ uid m, cs.userId = some uid →
        m ∈ membersOf st roomId → m ≠ ws → env.readyState m = 1 →
        (m, Frame.newMessage uid content env.now) ∈
          (handleMessage env ws cs st (InFrame.sendMessage roomId content)).out) := by
  intro env ws cs st roomId content
  constructor
  · intro hu
    simp [handleMessage, hu]
  · intro uid m hu hm hne hready
    simp only [handleMessage, hu]
    unfold broadcastToRoom
    cases h : st.chatRooms roomId with
    | none => simp [membersOf, h] at hm
    | some room =>
        rw [membersOf, h] at hm
        simp only [List.mem_map]
        refine ⟨m, List.mem_filter.mpr ⟨hm, ?_⟩, rfl⟩
        simp [hne, hready]

/-- Witness for C2: the unauthenticated branch fails with the error and
delivers nothing; the authenticated non-member branch delivers to
member 2 of room `r`. -/
theorem c2_send_checks_only_authentication_witness :
    (handleMessage envAlice 1 ⟨none, []⟩ stRoomR (InFrame.sendMessage "r" "hi") =
      ⟨⟨none, []⟩, stRoomR, [(1, Frame.error "Not authenticated")]⟩) ∧
    (2, Frame.newMessage "alice" "hi" 0) ∈
      (handleMessage envAlice 1 ⟨some "alice", []⟩ stRoomR
        (InFrame.sendMessage "r" "hi")).out :=
  ⟨(c2_send_checks_only_authentication envAlice 1 ⟨none, []⟩ stRoomR "r" "hi").1 rfl,
   (c2_send_checks_only_authentication envAlice 1 ⟨some "alice", []⟩ stRoomR "r" "hi").2
     "alice" 2 rfl (by decide) (by decide) rfl⟩

/-- C4: fan-out correctness. For a room with member set `[A, B, C]` where
B and C are writable, a `send_message` from authenticated A performs
exactly the sends to B and C (never to A), so the delivered-count is 2;
and in general every delivery of `broadcastToRoom` goes to a room member
distinct from the sender whose transport readyState equals 1. -/
theorem c4_fanout_delivers_to_exactly_other_writable_members :
    (∀ (env : Env) (A B C : Conn) (cs : ConnState) (st : ServerState)
       (roomId : Addr) (content : String) (uid : Addr),
      cs.userId = some uid →
      st.chatRooms roomId = some [A, B, C] →
      B ≠ A → C ≠ A →
      env.readyState B = 1 → env.readyState C = 1 →
      (handleMessage env A cs st (InFrame.sendMessage roomId content)).out =
        [(B, Frame.newMessage uid content env.now),
         (C, Frame.newMessage uid content env.now)] ∧
      (handleMessage env A cs st (InFrame.sendMessage roomId content)).out.length = 2) ∧
    (∀ (st : ServerState) (ready : Conn → Nat) (roomId : Addr) (msg : Frame)
       (sender : Conn) (p : Conn × Frame),
      p ∈ broadcastToRoom st ready roomId msg (some sender) →
      p.1 ≠ sender ∧ ready p.1 = 1 ∧ p.1 ∈ membersOf st roomId) := by
  constructor
  · intro env A B C cs st roomId content uid hu hroom hBA hCA hB hC
    have hout :
        (handleMessage env A cs st (InFrame.sendMessage roomId content)).out =
          [(B, Frame.newMessage uid content env.now),
           (C, Frame.newMessage uid content env.now)] := by
      have h1 : (some B != some A) = true := by simp [hBA]
      have h2 : (some C != some A) = true := by simp [hCA]
      simp [handleMessage, hu, broadcastToRoom, hroom, List.filter, h1, h2, hB, hC]
    exact ⟨hout, by rw [hout]; rfl⟩
  · intro st ready roomId msg sender p hp
    unfold broadcastToRoom at hp
    cases h : st.chatRooms roomId with
    | none => rw [h] at hp; simp at hp
    | some room =>
        rw [h] at hp
        simp only [List.mem_map] at hp
        obtain ⟨c, hc, rfl⟩ := hp
        rw [List.mem_filter] at hc
        obtain ⟨hcr, hcond⟩ := hc
        simp only [Bool.and_eq_true, bne_iff_ne, beq_iff_eq, ne_eq,
          Option.some.injEq] at hcond
        exact ⟨hcond.1, hcond.2, by simp [membersOf, h, hcr]⟩

/-- Witness for C4: room `t` has members 1, 2, 3, all writable; a send
from 1 delivers exactly to 2 and 3 with delivered-count 2, and the
delivery to 2 satisfies the general exclusion facts. -/
theorem c4_fanout_delivers_to_exactly_other_writable_members_witness :
    ((handleMessage envAlice 1 ⟨some "alice", []⟩ stABC
        (InFrame.sendMessage "t" "hi")).out =
      [(2, Frame.newMessage "alice" "hi" 0), (3, Frame.newMessage "alice" "hi" 0)] ∧
     (handleMessage envAlice 1 ⟨some "alice", []⟩ stABC
        (InFrame.sendMessage "t" "hi")).out.length = 2) ∧
    (((2 : Conn), Frame.newMessage "alice" "hi" 0).1 ≠ 1 ∧
     envAlice.readyState ((2 : Conn), Frame.newMessage "alice" "hi" 0).1 = 1 ∧
     ((2 : Conn), Frame.newMessage "alice" "hi" 0).1 ∈ membersOf stABC "t") :=
  ⟨(c4_fanout_delivers_to_exactly_other_writable_members).1 envAlice 1 2 3
     ⟨some "alice", []⟩ stABC "t" "hi" "alice" rfl rfl (by decide) (by decide) rfl rfl,
   (c4_fanout_delivers_to_exactly_other_writable_members).2 stABC envAlice.readyState
     "t" (Frame.newMessage "alice" "hi" 0) 1 (2, Frame.newMessage "alice" "hi" 0)
     (by decide)⟩

end TokenGate
